import Mathlib

/-!
Verification of the nepse-signaling core (signal derivation and fusion).

This file shallowly embeds the algorithmic core of the repository:

* the Decision Engine (the decision matrix inside analyze_stock in
  src/new.py lines 204-231, src/main_new.py lines 314-341, and
  src/main.py lines 187-217),
* the Technical Signal Resolver (analyze_technical_indicators in
  src/new.py, src/main_new.py and src/main.py),
* the Sentiment Aggregator (analyze_news_sentiment),
* the buy/sell pressure statistic (calculate_buy_sell_pressure),
* the Bollinger band computation (calculate_bollinger_bands of
  src/new.py and src/main_new.py), and
* the post-gather ranking/bucketing and output step of send_signals.

Machine floats are modelled by rationals; a float NaN produced by the
source (undefined rolling statistics, 0/0) is modelled by the `none`
value of an `Option` type, matching the float semantics that every
ordered comparison against NaN is false.  The square root inside the
rolling standard deviation is kept as an abstract parameter
(`sqrtFn : Rat -> Rat`): no claim below depends on the numeric value of a
standard deviation, only on whether it is defined (NaN or not) and on how
NaN propagates.
-/

/-- The categorical technical verdict ("Buy"/"Sell"/"Neutral" strings in
the source). -/
inductive TSignal where
  | Buy
  | Sell
  | Neutral
deriving DecidableEq, Repr

/-- The final trading signal ("Buy"/"Sell"/"Hold" strings in the source). -/
inductive FSignal where
  | Buy
  | Sell
  | Hold
deriving DecidableEq, Repr

/-- One element of the `signals` vote list collected by
analyze_technical_indicators (only the strings "Buy" and "Sell" are ever
appended). -/
inductive Vote where
  | Buy
  | Sell
deriving DecidableEq, Repr

/-! ## Decision Engine

src/new.py lines 204-231 (identically src/main_new.py lines 314-341):

    buy_points = 0; sell_points = 0
    if technical == "Buy": buy_points += 2
    elif technical == "Sell": sell_points += 2
    if net_pressure > 0: buy_points += 1
    elif net_pressure < 0: sell_points += 1
    if sentiment > 0.05: buy_points += 1
    elif sentiment < -0.05: sell_points += 1
    if buy_points >= 3 and buy_points > sell_points: signal = "Buy"
    elif sell_points >= 3 and sell_points > buy_points: signal = "Sell"
    else: signal stays "Hold"

The elif branches are guarded by conditions that are mutually exclusive
with the corresponding if (net_pressure cannot be both > 0 and < 0, a
sentiment cannot exceed 0.05 and lie below -0.05), so the accumulated
totals split into the two independent sums below. -/

/-- Buy points accumulated by the decision matrix of analyze_stock. -/
def buy_points (technical : TSignal) (net_pressure sentiment : ℚ) : ℕ :=
  (if technical = TSignal.Buy then 2 else 0)
    + (if 0 < net_pressure then 1 else 0)
    + (if 5 / 100 < sentiment then 1 else 0)

/-- Sell points accumulated by the decision matrix of analyze_stock. -/
def sell_points (technical : TSignal) (net_pressure sentiment : ℚ) : ℕ :=
  (if technical = TSignal.Sell then 2 else 0)
    + (if net_pressure < 0 then 1 else 0)
    + (if sentiment < -(5 / 100) then 1 else 0)

/-- The final decision of analyze_stock (src/new.py lines 204-231,
src/main_new.py lines 314-341), as a function of the three fused inputs:
technical verdict, net pressure (buy pressure minus sell pressure) and
sentiment score. -/
def analyze_stock_signal (technical : TSignal) (net_pressure sentiment : ℚ) : FSignal :=
  if 3 ≤ buy_points technical net_pressure sentiment
      ∧ sell_points technical net_pressure sentiment
          < buy_points technical net_pressure sentiment then
    FSignal.Buy
  else if 3 ≤ sell_points technical net_pressure sentiment
      ∧ buy_points technical net_pressure sentiment
          < sell_points technical net_pressure sentiment then
    FSignal.Sell
  else
    FSignal.Hold

/-! src/main.py lines 187-217 differ from the above only in that

* the net-pressure comparison uses a deadband
  pressure_threshold = abs(net_pressure) * 0.3, and
* the technical checks are written with the substring operator
  ("Buy" in technical_signal), which on the three possible verdict
  strings "Buy"/"Sell"/"Neutral" coincides with string equality. -/

/-- Buy points of the src/main.py decision matrix (with the
30-percent-of-magnitude pressure deadband). -/
def buy_points_main (technical : TSignal) (net_pressure sentiment : ℚ) : ℕ :=
  (if technical = TSignal.Buy then 2 else 0)
    + (if |net_pressure| * (3 / 10) < net_pressure then 1 else 0)
    + (if 5 / 100 < sentiment then 1 else 0)

/-- Sell points of the src/main.py decision matrix. -/
def sell_points_main (technical : TSignal) (net_pressure sentiment : ℚ) : ℕ :=
  (if technical = TSignal.Sell then 2 else 0)
    + (if net_pressure < -(|net_pressure| * (3 / 10)) then 1 else 0)
    + (if sentiment < -(5 / 100) then 1 else 0)

/-- The final decision of analyze_stock in src/main.py lines 187-217. -/
def analyze_stock_signal_main (technical : TSignal) (net_pressure sentiment : ℚ) : FSignal :=
  if 3 ≤ buy_points_main technical net_pressure sentiment
      ∧ sell_points_main technical net_pressure sentiment
          < buy_points_main technical net_pressure sentiment then
    FSignal.Buy
  else if 3 ≤ sell_points_main technical net_pressure sentiment
      ∧ buy_points_main technical net_pressure sentiment
          < sell_points_main technical net_pressure sentiment then
    FSignal.Sell
  else
    FSignal.Hold

/-- The main.py deadband is vacuous on the positive side: a net pressure
exceeds 30 percent of its own magnitude exactly when it is positive. -/
lemma main_deadband_pos (net_pressure : ℚ) :
    |net_pressure| * (3 / 10) < net_pressure ↔ 0 < net_pressure := by
  rcases le_or_lt net_pressure 0 with h | h
  · constructor
    · intro hlt
      have habs : (0 : ℚ) ≤ |net_pressure| * (3 / 10) := by positivity
      linarith
    · intro h0; linarith
  · constructor
    · intro _; exact h
    · intro _; rw [abs_of_pos h]; linarith

/-- The main.py deadband is vacuous on the negative side as well. -/
lemma main_deadband_neg (net_pressure : ℚ) :
    net_pressure < -(|net_pressure| * (3 / 10)) ↔ net_pressure < 0 := by
  rcases le_or_lt 0 net_pressure with h | h
  · constructor
    · intro hlt
      have habs : (0 : ℚ) ≤ |net_pressure| * (3 / 10) := by positivity
      linarith
    · intro h0; linarith
  · constructor
    · intro _; exact h
    · intro _; rw [abs_of_neg h]; linarith

/-- The src/main.py decision engine computes the same final signal as the
src/new.py and src/main_new.py engine: its pressure deadband never changes
the sign test. -/
lemma analyze_stock_signal_main_eq (technical : TSignal) (net_pressure sentiment : ℚ) :
    analyze_stock_signal_main technical net_pressure sentiment
      = analyze_stock_signal technical net_pressure sentiment := by
  have hb : buy_points_main technical net_pressure sentiment
      = buy_points technical net_pressure sentiment := by
    unfold buy_points_main buy_points
    rw [if_congr (main_deadband_pos net_pressure) rfl rfl]
  have hs : sell_points_main technical net_pressure sentiment
      = sell_points technical net_pressure sentiment := by
    unfold sell_points_main sell_points
    rw [if_congr (main_deadband_neg net_pressure) rfl rfl]
  unfold analyze_stock_signal_main analyze_stock_signal
  rw [hb, hs]

/-- The full case characterization of the decision matrix, shared by the
decision-engine lemmas below. -/
lemma analyze_stock_signal_iff (technical : TSignal) (net_pressure sentiment : ℚ) :
    (analyze_stock_signal technical net_pressure sentiment = FSignal.Buy
      ↔ 3 ≤ buy_points technical net_pressure sentiment
          ∧ sell_points technical net_pressure sentiment
              < buy_points technical net_pressure sentiment)
    ∧ (analyze_stock_signal technical net_pressure sentiment = FSignal.Sell
      ↔ 3 ≤ sell_points technical net_pressure sentiment
          ∧ buy_points technical net_pressure sentiment
              < sell_points technical net_pressure sentiment)
    ∧ (analyze_stock_signal technical net_pressure sentiment = FSignal.Hold
      ↔ ¬(3 ≤ buy_points technical net_pressure sentiment
            ∧ sell_points technical net_pressure sentiment
                < buy_points technical net_pressure sentiment)
        ∧ ¬(3 ≤ sell_points technical net_pressure sentiment
            ∧ buy_points technical net_pressure sentiment
                < sell_points technical net_pressure sentiment)) := by
  unfold analyze_stock_signal
  split_ifs with h1 h2 <;> simp_all <;> omega

/-- C1. Decision Engine quorum rule: with points assigned as in the
decision matrix (technical Buy/Sell contributing 2 to the matching side,
the net-pressure sign contributing 1, sentiment beyond the 0.05 threshold
contributing 1), the final signal is Buy iff buy points reach 3 and exceed
sell points, Sell iff sell points reach 3 and exceed buy points, and Hold
in every remaining case. -/
theorem C1_quorum_rule (technical : TSignal) (net_pressure sentiment : ℚ) :
    (analyze_stock_signal technical net_pressure sentiment = FSignal.Buy
      ↔ 3 ≤ buy_points technical net_pressure sentiment
          ∧ sell_points technical net_pressure sentiment
              < buy_points technical net_pressure sentiment)
    ∧ (analyze_stock_signal technical net_pressure sentiment = FSignal.Sell
      ↔ 3 ≤ sell_points technical net_pressure sentiment
          ∧ buy_points technical net_pressure sentiment
              < sell_points technical net_pressure sentiment)
    ∧ (analyze_stock_signal technical net_pressure sentiment = FSignal.Hold
      ↔ ¬(3 ≤ buy_points technical net_pressure sentiment
            ∧ sell_points technical net_pressure sentiment
                < buy_points technical net_pressure sentiment)
        ∧ ¬(3 ≤ sell_points technical net_pressure sentiment
            ∧ buy_points technical net_pressure sentiment
                < sell_points technical net_pressure sentiment)) :=
  analyze_stock_signal_iff technical net_pressure sentiment

/-- C1 witness. The spec scenario: technical verdict Buy, zero net
pressure, zero sentiment gives only 2 buy points, below the quorum of 3,
so the final signal is Hold. -/
theorem C1_quorum_rule_witness :
    analyze_stock_signal TSignal.Buy 0 0 = FSignal.Hold :=
  (C1_quorum_rule TSignal.Buy 0 0).2.2.mpr (by
    have hb : buy_points TSignal.Buy 0 0 = 2 := by
      unfold buy_points
      rw [if_pos rfl, if_neg (by norm_num), if_neg (by norm_num)]
    have hs : sell_points TSignal.Buy 0 0 = 0 := by
      unfold sell_points
      rw [if_neg (by decide), if_neg (by norm_num), if_neg (by norm_num)]
    rw [hb, hs]
    omega)

/-- Buy points are monotone in net pressure. -/
lemma buy_points_mono (technical : TSignal) (sentiment : ℚ) {p1 p2 : ℚ} (h : p1 ≤ p2) :
    buy_points technical p1 sentiment ≤ buy_points technical p2 sentiment := by
  unfold buy_points
  have : (if 0 < p1 then 1 else 0) ≤ (if 0 < p2 then 1 else 0) := by
    split_ifs with ha hb
    · exact le_refl 1
    · exact absurd (lt_of_lt_of_le ha h) hb
    · exact Nat.zero_le 1
    · exact le_refl 0
  omega

/-- Sell points are antitone in net pressure. -/
lemma sell_points_anti (technical : TSignal) (sentiment : ℚ) {p1 p2 : ℚ} (h : p1 ≤ p2) :
    sell_points technical p2 sentiment ≤ sell_points technical p1 sentiment := by
  unfold sell_points
  have : (if p2 < 0 then 1 else 0) ≤ (if p1 < 0 then 1 else 0) := by
    split_ifs with ha hb
    · exact le_refl 1
    · exact absurd (lt_of_le_of_lt h ha) hb
    · exact Nat.zero_le 1
    · exact le_refl 0
  omega

/-- C3. Decision Engine monotonicity: holding the technical verdict
and the sentiment score fixed, raising the net pressure from p1 to p2
never flips a Buy result to Sell — in the shared new.py/main_new.py engine
and in the main.py deadband variant alike. -/
theorem C3_pressure_monotonic (technical : TSignal) (sentiment p1 p2 : ℚ) (hle : p1 ≤ p2) :
    (analyze_stock_signal technical p1 sentiment = FSignal.Buy
      → analyze_stock_signal technical p2 sentiment ≠ FSignal.Sell)
    ∧ (analyze_stock_signal_main technical p1 sentiment = FSignal.Buy
      → analyze_stock_signal_main technical p2 sentiment ≠ FSignal.Sell) := by
  have key : analyze_stock_signal technical p1 sentiment = FSignal.Buy
      → analyze_stock_signal technical p2 sentiment ≠ FSignal.Sell := by
    intro h1
    have hbuy1 := ((analyze_stock_signal_iff technical p1 sentiment).1).mp h1
    have hb := buy_points_mono technical sentiment hle
    have hs := sell_points_anti technical sentiment hle
    have hbuy2 : analyze_stock_signal technical p2 sentiment = FSignal.Buy :=
      ((analyze_stock_signal_iff technical p2 sentiment).1).mpr (by omega)
    rw [hbuy2]
    exact fun hcontra => FSignal.noConfusion hcontra
  refine ⟨key, ?_⟩
  rw [analyze_stock_signal_main_eq, analyze_stock_signal_main_eq]
  exact key

/-- C3 witness. A concrete Buy at pressure 1 stays non-Sell at
pressure 2 (technical Buy, sentiment 0.2). -/
theorem C3_pressure_monotonic_witness :
    analyze_stock_signal TSignal.Buy 2 (2 / 10) ≠ FSignal.Sell :=
  (C3_pressure_monotonic TSignal.Buy (2 / 10) 1 2 (by norm_num)).1 (by
    have hb : buy_points TSignal.Buy 1 (2 / 10) = 4 := by
      unfold buy_points
      rw [if_pos rfl, if_pos (by norm_num), if_pos (by norm_num)]
    have hs : sell_points TSignal.Buy 1 (2 / 10) = 0 := by
      unfold sell_points
      rw [if_neg (by decide), if_neg (by norm_num), if_neg (by norm_num)]
    unfold analyze_stock_signal
    rw [hb, hs]
    norm_num)

/-- Without a technical Buy verdict at most 2 buy points are attainable. -/
lemma buy_points_le_two (technical : TSignal) (net_pressure sentiment : ℚ)
    (h : technical ≠ TSignal.Buy) :
    buy_points technical net_pressure sentiment ≤ 2 := by
  unfold buy_points
  rw [if_neg h]
  split_ifs <;> omega

/-- Without a technical Sell verdict at most 2 sell points are attainable. -/
lemma sell_points_le_two (technical : TSignal) (net_pressure sentiment : ℚ)
    (h : technical ≠ TSignal.Sell) :
    sell_points technical net_pressure sentiment ≤ 2 := by
  unfold sell_points
  rw [if_neg h]
  split_ifs <;> omega

/-- C10. Technical confirmation is necessary for a trade signal: for
every net pressure and sentiment, a non-Buy technical verdict forbids a
final Buy and a non-Sell technical verdict forbids a final Sell, in both
decision-engine variants (without the 2 technical points at most 2 of the
required 3 points are attainable). -/
theorem C10_technical_necessary (technical : TSignal) (net_pressure sentiment : ℚ) :
    (technical ≠ TSignal.Buy
      → analyze_stock_signal technical net_pressure sentiment ≠ FSignal.Buy
        ∧ analyze_stock_signal_main technical net_pressure sentiment ≠ FSignal.Buy)
    ∧ (technical ≠ TSignal.Sell
      → analyze_stock_signal technical net_pressure sentiment ≠ FSignal.Sell
        ∧ analyze_stock_signal_main technical net_pressure sentiment ≠ FSignal.Sell) := by
  constructor
  · intro h
    have hle := buy_points_le_two technical net_pressure sentiment h
    have hnot : analyze_stock_signal technical net_pressure sentiment ≠ FSignal.Buy := by
      intro hbuy
      have := ((analyze_stock_signal_iff technical net_pressure sentiment).1).mp hbuy
      omega
    exact ⟨hnot, by rw [analyze_stock_signal_main_eq]; exact hnot⟩
  · intro h
    have hle := sell_points_le_two technical net_pressure sentiment h
    have hnot : analyze_stock_signal technical net_pressure sentiment ≠ FSignal.Sell := by
      intro hsell
      have := ((analyze_stock_signal_iff technical net_pressure sentiment).2.1).mp hsell
      omega
    exact ⟨hnot, by rw [analyze_stock_signal_main_eq]; exact hnot⟩

/-- C10 witness. With a Neutral technical verdict, maximal pressure
and sentiment still cannot produce a final Buy. -/
theorem C10_technical_necessary_witness :
    analyze_stock_signal TSignal.Neutral 1000 1 ≠ FSignal.Buy :=
  ((C10_technical_necessary TSignal.Neutral 1000 1).1 (by decide)).1

/-! ## Sentiment Aggregator

analyze_news_sentiment (src/new.py lines 68-86, identically src/main.py
lines 117-140 and src/main_new.py lines 93-112):

    stock_news = news_dict.get(symbol, [])
    if not stock_news: return 0
    for news_item in stock_news:
        days_old = (now - parse(news_item["publishedDate"])).days
        weight = max(0, 1 - days_old / 30)
        text = headline + " " + remarks
        scores.append(polarity(text) * weight)
    if not scores: return 0
    return sum(scores) / len(scores)

The TextBlob polarity model is an external capability and is passed in as
an abstract function from text to rationals; the subtraction of dates is
passed in as the precomputed integral day count (it may be negative for a
publish date in the future, exactly as in the source). -/

/-- One news disclosure for a symbol, with the age precomputed in days. -/
structure NewsItem where
  daysOld : ℤ
  newsHeadline : String
  remarks : String
deriving DecidableEq

/-- The text handed to the sentiment model: headline, a space, remarks. -/
def itemText (it : NewsItem) : String := it.newsHeadline ++ " " ++ it.remarks

/-- The linear 30-day recency weight. -/
def newsWeight (daysOld : ℤ) : ℚ := max 0 (1 - (daysOld : ℚ) / 30)

/-- Recency-weighted polarity of one news item. -/
def itemScore (polarity : String → ℚ) (it : NewsItem) : ℚ :=
  polarity (itemText it) * newsWeight it.daysOld

/-- analyze_news_sentiment, as a function of the symbol's news list. -/
def analyze_news_sentiment (polarity : String → ℚ) (stock_news : List NewsItem) : ℚ :=
  if stock_news = [] then 0
  else
    let sentiment_scores := stock_news.map (itemScore polarity)
    if sentiment_scores = [] then 0
    else sentiment_scores.sum / sentiment_scores.length

/-- C5. Sentiment aggregation: the score is the arithmetic mean of
polarity times the max(0, 1 - days/30) recency weight over the symbol's
news items; it is exactly 0 for a symbol with no news; and it is exactly 0
whenever every item (in particular a single 31-day-old item) is at least
30 days old, the weight being fully decayed. -/
theorem C5_sentiment_aggregation (polarity : String → ℚ) (stock_news : List NewsItem) :
    analyze_news_sentiment polarity [] = 0
    ∧ (stock_news ≠ []
      → analyze_news_sentiment polarity stock_news
        = (stock_news.map (itemScore polarity)).sum
            / (stock_news.map (itemScore polarity)).length)
    ∧ ((∀ it ∈ stock_news, (30 : ℤ) ≤ it.daysOld)
      → analyze_news_sentiment polarity stock_news = 0) := by
  refine ⟨rfl, ?_, ?_⟩
  · intro hne
    unfold analyze_news_sentiment
    rw [if_neg hne, if_neg (by simpa using hne)]
  · intro hold
    rcases eq_or_ne stock_news [] with hnil | hne
    · rw [hnil]; rfl
    · unfold analyze_news_sentiment
      rw [if_neg hne, if_neg (by simpa using hne)]
      have hzero : (stock_news.map (itemScore polarity)).sum = 0 := by
        apply List.sum_eq_zero
        intro x hx
        rcases List.mem_map.mp hx with ⟨it, hit, hval⟩
        have hw : newsWeight it.daysOld = 0 := by
          unfold newsWeight
          have h30 := hold it hit
          have : ((it.daysOld : ℚ)) / 30 ≥ 1 := by
            rw [ge_iff_le, le_div_iff₀ (by norm_num)]
            have : ((30 : ℤ) : ℚ) ≤ (it.daysOld : ℚ) := by exact_mod_cast h30
            push_cast at this ⊢
            linarith
          apply max_eq_left
          linarith
        rw [← hval]
        unfold itemScore
        rw [hw, mul_zero]
      rw [hzero, zero_div]

/-- C5 witness. A symbol whose only news item is 31 days old scores
exactly 0 under the constant-polarity-one model. -/
theorem C5_sentiment_aggregation_witness :
    analyze_news_sentiment (fun _ => 1) [⟨31, "great", ""⟩] = 0 :=
  (C5_sentiment_aggregation (fun _ => 1) [⟨31, "great", ""⟩]).2.2 (by
    intro it hit
    rw [List.mem_singleton] at hit
    rw [hit]
    decide)

/-! ## Buy/sell pressure

calculate_buy_sell_pressure (src/new.py lines 53-64, identically
src/main.py lines 61-76 and src/main_new.py lines 72-87):

    if not historical_data: return 0, 0
    if "closePrice" not in df.columns or "totalTradedQuantity" not in df.columns:
        return 0, 0
    df["price_change_pct"] = df["closePrice"].pct_change() * 100
    df["pressure"] = df["totalTradedQuantity"] * df["price_change_pct"].abs()
    buy_pressure = df[df["price_change_pct"] > 0]["pressure"].sum()
    sell_pressure = df[df["price_change_pct"] < 0]["pressure"].sum()

Bars are modelled as records carrying both columns, so the
missing-column branch of the source cannot arise in the embedding.  The
percentage change of the first row is the float NaN, modelled as none; a
zero previous close makes the float division non-numeric as well (NaN or
a signed infinity, depending on the numerator) and is collapsed to the
same undefined sentinel, which no claim distinguishes — every ordered
comparison of the filters is false on it either way. -/

/-- One row of the historical data used by the pressure statistic. -/
structure PriceBar where
  closePrice : ℚ
  totalTradedQuantity : ℚ
deriving DecidableEq

/-- Percentage change between consecutive closes (None models the float
non-number produced for the first row or for a zero previous close). -/
def pctChange (prev cur : ℚ) : Option ℚ :=
  if prev = 0 then none else some ((cur - prev) / prev * 100)

/-- The per-bar percentage changes: None for the first bar, then
consecutive-pair changes. -/
def priceChangePcts (closes : List ℚ) : List (Option ℚ) :=
  none :: (closes.zip closes.tail).map (fun pc => pctChange pc.1 pc.2)

/-- calculate_buy_sell_pressure: volume-weighted magnitudes of positive
and of negative percentage moves, summed separately. -/
def calculate_buy_sell_pressure (historical_data : List PriceBar) : ℚ × ℚ :=
  if historical_data = [] then (0, 0)
  else
    let pcts := priceChangePcts (historical_data.map PriceBar.closePrice)
    let rows := historical_data.zip pcts
    let buy_pressure := (rows.map (fun r =>
      match r.2 with
      | some p => if 0 < p then r.1.totalTradedQuantity * |p| else 0
      | none => 0)).sum
    let sell_pressure := (rows.map (fun r =>
      match r.2 with
      | some p => if p < 0 then r.1.totalTradedQuantity * |p| else 0
      | none => 0)).sum
    (buy_pressure, sell_pressure)

/-- On a constant close series every computed percentage change is either
the undefined first entry or exactly zero. -/
lemma priceChangePcts_const {c : ℚ} {closes : List ℚ}
    (hconst : ∀ x ∈ closes, x = c) :
    ∀ o ∈ priceChangePcts closes, o = none ∨ o = some 0 := by
  intro o ho
  unfold priceChangePcts at ho
  rcases List.mem_cons.mp ho with h | h
  · exact Or.inl h
  · rcases List.mem_map.mp h with ⟨pc, hpc, hval⟩
    have h1 : pc.1 = c := hconst pc.1 (List.of_mem_zip hpc).1
    have h2 : pc.2 = c := hconst pc.2 (List.mem_of_mem_tail (List.of_mem_zip hpc).2)
    rw [← hval]
    unfold pctChange
    rw [h1, h2]
    split_ifs with hc
    · exact Or.inl rfl
    · right
      rw [sub_self, zero_div, zero_mul]

/-- C7. Pressure round-trip: a price series whose close price never
changes bar to bar produces zero buy pressure, zero sell pressure, and
hence zero net pressure — bars with zero (or undefined) price change
contribute to neither side. -/
theorem C7_constant_series_zero_pressure (c : ℚ) (historical_data : List PriceBar)
    (hconst : ∀ b ∈ historical_data, b.closePrice = c) :
    calculate_buy_sell_pressure historical_data = (0, 0)
    ∧ (calculate_buy_sell_pressure historical_data).1
        - (calculate_buy_sell_pressure historical_data).2 = 0 := by
  have main : calculate_buy_sell_pressure historical_data = (0, 0) := by
    unfold calculate_buy_sell_pressure
    split_ifs with hnil
    · rfl
    · have hc : ∀ x ∈ historical_data.map PriceBar.closePrice, x = c := by
        intro x hx
        rcases List.mem_map.mp hx with ⟨b, hb, hval⟩
        rw [← hval]; exact hconst b hb
      have hpct := priceChangePcts_const hc
      have hterm : ∀ (f : ℚ → Prop) [DecidablePred f] (hf : ¬ f 0),
          ∀ x ∈ ((historical_data.zip
              (priceChangePcts (historical_data.map PriceBar.closePrice))).map
            (fun r => match r.2 with
              | some p => if f p then r.1.totalTradedQuantity * |p| else 0
              | none => 0)), x = 0 := by
        intro f _ hf x hx
        rcases List.mem_map.mp hx with ⟨r, hr, hval⟩
        have hmem := (List.of_mem_zip hr).2
        rcases hpct r.2 hmem with h0 | h0 <;> rw [← hval, h0]
        simp [hf]
      dsimp only
      rw [Prod.mk.injEq]
      constructor
      · exact List.sum_eq_zero (hterm (fun p => 0 < p) (by norm_num))
      · exact List.sum_eq_zero (hterm (fun p => p < 0) (by norm_num))
  refine ⟨main, ?_⟩
  rw [main]
  norm_num

/-- C7 witness. A concrete three-bar series at constant close 50 has
zero buy and sell pressure. -/
theorem C7_constant_series_zero_pressure_witness :
    calculate_buy_sell_pressure [⟨50, 100⟩, ⟨50, 200⟩, ⟨50, 300⟩] = (0, 0) :=
  (C7_constant_series_zero_pressure 50 [⟨50, 100⟩, ⟨50, 200⟩, ⟨50, 300⟩] (by
    intro b hb
    rcases List.mem_cons.mp hb with h | h
    · rw [h]
    rcases List.mem_cons.mp h with h2 | h2
    · rw [h2]
    rcases List.mem_cons.mp h2 with h3 | h3
    · rw [h3]
    · exact absurd h3 (List.not_mem_nil b))).1

/-! ## Technical Signal Resolver: final vote resolution

src/new.py lines 163-166 (and src/main.py lines 111-113):

    if not signals:
        return {"Signal": "Neutral"}
    return {"Signal": max(set(signals), key=signals.count)}

The Python builtin max with a key walks the iterable and keeps the first
element whose key is strictly maximal; on a tie the earlier element wins.
The iterable here is a set, whose iteration order over the strings
"Buy"/"Sell" depends on the process hash seed; the embedding therefore
takes that iteration order as an explicit parameter (a duplicate-free
list with the same members as the vote list).

src/main_new.py lines 248-255 instead count the two sides and fall back
to Neutral on a tie:

    buy_signals = signals.count("Buy")
    sell_signals = signals.count("Sell")
    final_signal = "Neutral"
    if buy_signals > sell_signals: final_signal = "Buy"
    elif sell_signals > buy_signals: final_signal = "Sell"
-/

/-- Python max(iterable, key=count) over a nonempty iteration order:
fold keeping the first element of strictly maximal count. -/
def pyMaxByCount (signals : List Vote) : List Vote → Option Vote
  | [] => none
  | x :: xs =>
    some (xs.foldl (fun acc y => if signals.count acc < signals.count y then y else acc) x)

/-- The vote resolution of src/new.py lines 163-166 and src/main.py lines
111-113, with the set-iteration order passed explicitly. -/
def resolveVotes (order signals : List Vote) : TSignal :=
  if signals = [] then TSignal.Neutral
  else
    match pyMaxByCount signals order with
    | some Vote.Buy => TSignal.Buy
    | some Vote.Sell => TSignal.Sell
    | none => TSignal.Neutral

/-- The vote resolution of src/main_new.py lines 248-255. -/
def resolveVotesMainNew (signals : List Vote) : TSignal :=
  let buy_signals := signals.count Vote.Buy
  let sell_signals := signals.count Vote.Sell
  if sell_signals < buy_signals then TSignal.Buy
  else if buy_signals < sell_signals then TSignal.Sell
  else TSignal.Neutral

/-- The order parameter is a faithful image of the Python set of the vote
list: duplicate-free with exactly the members of the vote list. -/
def IsSetOrder (order signals : List Vote) : Prop :=
  order.Nodup ∧ ∀ v : Vote, v ∈ order ↔ v ∈ signals

/-- C2 counterexample. A one-one tie (one Buy vote, one Sell vote):
under both possible set-iteration orders the src/new.py resolver returns
a trade verdict, never Neutral, contradicting the claimed tie rule (both
orders are valid set orders of the vote list). -/
theorem C2_counterexample :
    IsSetOrder [Vote.Buy, Vote.Sell] [Vote.Buy, Vote.Sell]
    ∧ IsSetOrder [Vote.Sell, Vote.Buy] [Vote.Buy, Vote.Sell]
    ∧ resolveVotes [Vote.Buy, Vote.Sell] [Vote.Buy, Vote.Sell] ≠ TSignal.Neutral
    ∧ resolveVotes [Vote.Sell, Vote.Buy] [Vote.Buy, Vote.Sell] ≠ TSignal.Neutral := by
  refine ⟨⟨by decide, fun v => by cases v <;> decide⟩,
    ⟨by decide, fun v => by cases v <;> decide⟩, by decide, by decide⟩

/-- A vote list with no Buy and no Sell member is empty. -/
lemma votes_eq_nil (signals : List Vote)
    (hb : Vote.Buy ∉ signals) (hs : Vote.Sell ∉ signals) : signals = [] := by
  rw [List.eq_nil_iff_forall_not_mem]
  intro v
  cases v
  · exact hb
  · exact hs

/-- C2 amended. Strict majority always wins in every variant, and the
all-abstain (empty) vote list resolves to Neutral in every variant; but
only the src/main_new.py resolver returns Neutral on every tie.  The
src/new.py and src/main.py resolver, for any valid set-iteration order,
returns the strict-majority side when one exists and on a nonempty tie
returns whichever voted side iterates first — a Buy or Sell verdict,
never Neutral. -/
theorem C2_amended (signals order : List Vote) (hord : IsSetOrder order signals) :
    (resolveVotesMainNew signals = TSignal.Buy
      ↔ signals.count Vote.Sell < signals.count Vote.Buy)
    ∧ (resolveVotesMainNew signals = TSignal.Sell
      ↔ signals.count Vote.Buy < signals.count Vote.Sell)
    ∧ (resolveVotesMainNew signals = TSignal.Neutral
      ↔ signals.count Vote.Buy = signals.count Vote.Sell)
    ∧ (signals.count Vote.Sell < signals.count Vote.Buy
      → resolveVotes order signals = TSignal.Buy)
    ∧ (signals.count Vote.Buy < signals.count Vote.Sell
      → resolveVotes order signals = TSignal.Sell)
    ∧ (signals = [] → resolveVotes order signals = TSignal.Neutral)
    ∧ (signals ≠ [] → resolveVotes order signals ≠ TSignal.Neutral) := by
  obtain ⟨hnd, hmem⟩ := hord
  have hcore :
      (signals.count Vote.Sell < signals.count Vote.Buy
        → resolveVotes order signals = TSignal.Buy)
      ∧ (signals.count Vote.Buy < signals.count Vote.Sell
        → resolveVotes order signals = TSignal.Sell)
      ∧ (signals = [] → resolveVotes order signals = TSignal.Neutral)
      ∧ (signals ≠ [] → resolveVotes order signals ≠ TSignal.Neutral) := by
    rcases order with _ | ⟨a, _ | ⟨b, _ | ⟨c, rest⟩⟩⟩
    · have hsnil : signals = [] :=
        votes_eq_nil signals
          (fun h => by simpa using (hmem Vote.Buy).mpr h)
          (fun h => by simpa using (hmem Vote.Sell).mpr h)
      subst hsnil
      refine ⟨by simp, by simp, fun _ => rfl, fun h => absurd rfl h⟩
    · cases a
      · have hbuy : Vote.Buy ∈ signals := (hmem Vote.Buy).mp (by simp)
        have hsell : Vote.Sell ∉ signals := fun h => by simpa using (hmem Vote.Sell).mpr h
        have hne : signals ≠ [] := fun h => by rw [h] at hbuy; simp at hbuy
        have hcs : signals.count Vote.Sell = 0 := List.count_eq_zero.mpr hsell
        have hres : resolveVotes [Vote.Buy] signals = TSignal.Buy := by
          unfold resolveVotes
          rw [if_neg hne]
          rfl
        refine ⟨fun _ => hres, fun h => by omega, fun h => absurd h hne,
          fun _ => by rw [hres]; exact fun hc => TSignal.noConfusion hc⟩
      · have hsell : Vote.Sell ∈ signals := (hmem Vote.Sell).mp (by simp)
        have hbuy : Vote.Buy ∉ signals := fun h => by simpa using (hmem Vote.Buy).mpr h
        have hne : signals ≠ [] := fun h => by rw [h] at hsell; simp at hsell
        have hcb : signals.count Vote.Buy = 0 := List.count_eq_zero.mpr hbuy
        have hres : resolveVotes [Vote.Sell] signals = TSignal.Sell := by
          unfold resolveVotes
          rw [if_neg hne]
          rfl
        refine ⟨fun h => by omega, fun _ => hres, fun h => absurd h hne,
          fun _ => by rw [hres]; exact fun hc => TSignal.noConfusion hc⟩
    · cases a <;> cases b
      · simp at hnd
      · have hbuy : Vote.Buy ∈ signals := (hmem Vote.Buy).mp (by simp)
        have hne : signals ≠ [] := fun h => by rw [h] at hbuy; simp at hbuy
        have hres : resolveVotes [Vote.Buy, Vote.Sell] signals
            = (if signals.count Vote.Buy < signals.count Vote.Sell
                then TSignal.Sell else TSignal.Buy) := by
          unfold resolveVotes pyMaxByCount
          rw [if_neg hne]
          simp only [List.foldl]
          split_ifs with h <;> rfl
        refine ⟨fun h => by rw [hres, if_neg (by omega)],
          fun h => by rw [hres, if_pos h],
          fun h => absurd h hne,
          fun _ => by
            rw [hres]
            split_ifs <;> exact fun hc => TSignal.noConfusion hc⟩
      · have hbuy : Vote.Buy ∈ signals := (hmem Vote.Buy).mp (by simp)
        have hne : signals ≠ [] := fun h => by rw [h] at hbuy; simp at hbuy
        have hres : resolveVotes [Vote.Sell, Vote.Buy] signals
            = (if signals.count Vote.Sell < signals.count Vote.Buy
                then TSignal.Buy else TSignal.Sell) := by
          unfold resolveVotes pyMaxByCount
          rw [if_neg hne]
          simp only [List.foldl]
          split_ifs with h <;> rfl
        refine ⟨fun h => by rw [hres, if_pos h],
          fun h => by rw [hres, if_neg (by omega)],
          fun h => absurd h hne,
          fun _ => by
            rw [hres]
            split_ifs <;> exact fun hc => TSignal.noConfusion hc⟩
      · simp at hnd
    · cases a <;> cases b <;> cases c <;> simp_all
  refine ⟨?_, ?_, ?_, hcore.1, hcore.2.1, hcore.2.2.1, hcore.2.2.2⟩
  · unfold resolveVotesMainNew
    dsimp only
    split_ifs with h1 h2 <;> simp_all <;> omega
  · unfold resolveVotesMainNew
    dsimp only
    split_ifs with h1 h2 <;> simp_all <;> omega
  · unfold resolveVotesMainNew
    dsimp only
    split_ifs with h1 h2 <;> simp_all <;> omega

/-- C2 witness. A two-Buy-one-Sell vote list resolves to Buy under the
src/new.py resolver (here with set order Buy-then-Sell), by strict
majority. -/
theorem C2_amended_witness :
    resolveVotes [Vote.Buy, Vote.Sell] [Vote.Buy, Vote.Buy, Vote.Sell] = TSignal.Buy :=
  (C2_amended [Vote.Buy, Vote.Buy, Vote.Sell] [Vote.Buy, Vote.Sell]
    ⟨by decide, fun v => by cases v <;> decide⟩).2.2.2.1 (by decide)

/-! ## Ranking, bucketing and output

send_signals, post-gather phase (src/new.py lines 268-299, identically
src/main.py lines 260-291):

    buy_signals  = [r for r in results if r["Final Signal"] == "Buy"]
    sell_signals = [r for r in results if r["Final Signal"] == "Sell"]
    hold_signals = [r for r in results if r["Final Signal"] == "Hold"]
    buy_sorted  = sorted(buy_signals,  key=(-(tech==Buy), -net, -sentiment))
    sell_sorted = sorted(sell_signals, key=(-(tech==Sell), net, sentiment))
    sorted_results = buy_sorted + sell_sorted + hold_signals
    pd.DataFrame(sorted_results).to_csv("signals.csv")

The gathered results arrive in completion order (as_completed); this
phase is a pure function of the arrival-ordered result list.  Python's
sorted is a stable sort on the ascending lexicographic key order, which
insertion sort over the key order reproduces.  The hold bucket is not
sorted at all.  src/main_new.py lines 391-393 guard the output step:

    if not results:
        return

returning before any file is produced; src/new.py and src/main.py have no
such guard and always write signals.csv.  The output file is modelled by
the ordered row list it would contain, none standing for no file at all. -/

/-- One gathered per-instrument analysis record (the fields of the result
dict of analyze_stock that the ranking step reads). -/
structure AnalysisResult where
  symbol : String
  buyPressure : ℤ
  sellPressure : ℤ
  netPressure : ℤ
  sentimentScore : ℚ
  technicalSignal : TSignal
  finalSignal : FSignal
deriving DecidableEq, Repr

/-- Ascending lexicographic order on a Python three-component sort key. -/
def keyLe (a b : ℤ × ℤ × ℚ) : Prop :=
  a.1 < b.1 ∨ (a.1 = b.1 ∧ (a.2.1 < b.2.1 ∨ (a.2.1 = b.2.1 ∧ a.2.2 ≤ b.2.2)))

instance : DecidableRel keyLe := fun a b => by unfold keyLe; infer_instance

/-- The buy-bucket sort key: technically-confirmed buys first, then
higher net pressure, then higher sentiment. -/
def buyKey (r : AnalysisResult) : ℤ × ℤ × ℚ :=
  (-(if r.technicalSignal = TSignal.Buy then 1 else 0), -r.netPressure, -r.sentimentScore)

/-- The sell-bucket sort key: technically-confirmed sells first, then
lower net pressure, then lower sentiment. -/
def sellKey (r : AnalysisResult) : ℤ × ℤ × ℚ :=
  (-(if r.technicalSignal = TSignal.Sell then 1 else 0), r.netPressure, r.sentimentScore)

/-- Buy-bucket order. -/
def buyRel (a b : AnalysisResult) : Prop := keyLe (buyKey a) (buyKey b)

/-- Sell-bucket order. -/
def sellRel (a b : AnalysisResult) : Prop := keyLe (sellKey a) (sellKey b)

instance : DecidableRel buyRel := fun a b => by unfold buyRel; infer_instance

instance : DecidableRel sellRel := fun a b => by unfold sellRel; infer_instance

/-- The ordered ResultSet written by send_signals: sorted buy bucket,
then sorted sell bucket, then the hold bucket in arrival order. -/
def sortResults (results : List AnalysisResult) : List AnalysisResult :=
  let buy_signals := results.filter (fun r => r.finalSignal == FSignal.Buy)
  let sell_signals := results.filter (fun r => r.finalSignal == FSignal.Sell)
  let hold_signals := results.filter (fun r => r.finalSignal == FSignal.Hold)
  List.insertionSort buyRel buy_signals
    ++ List.insertionSort sellRel sell_signals
    ++ hold_signals

/-- The output step of src/new.py and src/main.py send_signals: the csv
file is always written, holding the sorted result rows. -/
def send_signals_output (results : List AnalysisResult) : Option (List AnalysisResult) :=
  some (sortResults results)

/-- The output step of src/main_new.py send_signals (lines 391-393): an
empty gathered list returns before any file is written. -/
def send_signals_output_main_new (results : List AnalysisResult) :
    Option (List AnalysisResult) :=
  if results = [] then none else some results

/-- C4 counterexample. Two Hold results arriving in the two possible
completion orders: the gathered lists are permutations of each other, yet
the final ordered ResultSet differs — the Hold bucket keeps arrival
order, so the output is not completion-order invariant. -/
theorem C4_counterexample :
    ([⟨"AAA", 0, 0, 0, 0, TSignal.Neutral, FSignal.Hold⟩,
      ⟨"BBB", 0, 0, 0, 0, TSignal.Neutral, FSignal.Hold⟩] : List AnalysisResult).Perm
      [⟨"BBB", 0, 0, 0, 0, TSignal.Neutral, FSignal.Hold⟩,
       ⟨"AAA", 0, 0, 0, 0, TSignal.Neutral, FSignal.Hold⟩]
    ∧ sortResults
        [⟨"AAA", 0, 0, 0, 0, TSignal.Neutral, FSignal.Hold⟩,
         ⟨"BBB", 0, 0, 0, 0, TSignal.Neutral, FSignal.Hold⟩]
      ≠ sortResults
        [⟨"BBB", 0, 0, 0, 0, TSignal.Neutral, FSignal.Hold⟩,
         ⟨"AAA", 0, 0, 0, 0, TSignal.Neutral, FSignal.Hold⟩] := by
  constructor
  · exact List.Perm.swap _ _ _
  · decide

/-- C4 amended. The final ResultSet is completion-order deterministic
up to ordering only: any two completion orders of the same per-instrument
results yield ResultSets that are permutations of each other (each bucket
holds exactly the same records), but the row order itself can differ —
the Hold bucket keeps arrival order and equal-key Buy/Sell rows keep
their stable-sort arrival order. -/
theorem C4_amended (l1 l2 : List AnalysisResult) (h : l1.Perm l2) :
    (sortResults l1).Perm (sortResults l2) := by
  unfold sortResults
  have hb := (List.perm_insertionSort buyRel
      (l1.filter (fun r => r.finalSignal == FSignal.Buy))).trans
    ((h.filter (fun r => r.finalSignal == FSignal.Buy)).trans
      (List.perm_insertionSort buyRel
        (l2.filter (fun r => r.finalSignal == FSignal.Buy))).symm)
  have hs := (List.perm_insertionSort sellRel
      (l1.filter (fun r => r.finalSignal == FSignal.Sell))).trans
    ((h.filter (fun r => r.finalSignal == FSignal.Sell)).trans
      (List.perm_insertionSort sellRel
        (l2.filter (fun r => r.finalSignal == FSignal.Sell))).symm)
  have hh := h.filter (fun r => r.finalSignal == FSignal.Hold)
  exact (hb.append hs).append hh

/-- C4 witness. The two arrival orders of the counterexample do agree
up to permutation. -/
theorem C4_amended_witness :
    (sortResults
        [⟨"AAA", 0, 0, 0, 0, TSignal.Neutral, FSignal.Hold⟩,
         ⟨"BBB", 0, 0, 0, 0, TSignal.Neutral, FSignal.Hold⟩]).Perm
      (sortResults
        [⟨"BBB", 0, 0, 0, 0, TSignal.Neutral, FSignal.Hold⟩,
         ⟨"AAA", 0, 0, 0, 0, TSignal.Neutral, FSignal.Hold⟩]) :=
  C4_amended _ _ (List.Perm.swap _ _ _)

/-- C8 counterexample. The src/new.py and src/main.py variant of
send_signals has no empty-run guard: a run in which zero instruments
produced a result still writes the result file, containing zero data
rows. -/
theorem C8_counterexample :
    send_signals_output [] = some [] ∧ send_signals_output [] ≠ none := by
  constructor
  · decide
  · decide

/-- C8 amended. Only the src/main_new.py variant short-circuits on an
empty gathered result list, returning before ranking and writing no file;
the src/new.py and src/main.py variant always writes the csv file, on an
empty run an empty one. -/
theorem C8_amended (results : List AnalysisResult) (h : results = []) :
    send_signals_output_main_new results = none
    ∧ send_signals_output results = some (sortResults results) := by
  subst h
  exact ⟨rfl, rfl⟩

/-- C8 witness. The main_new variant writes nothing on an empty run. -/
theorem C8_amended_witness :
    send_signals_output_main_new [] = none :=
  (C8_amended [] rfl).1

/-! ## Indicator Library and Technical Signal Resolver pipeline

Rolling statistics of pandas: rolling(window=w, min_periods=mp) computes,
at every row i, the statistic of the at-most-w values ending at row i,
and yields the float NaN when fewer than mp values are available.
rolling(w) without min_periods defaults to mp = w.  The sample standard
deviation (ddof=1) is additionally NaN whenever fewer than 2 values are
in the window.  ewm(span=s, adjust=False).mean() is the recursion
e[0] = x[0], e[t] = a*x[t] + (1-a)*e[t-1] with a = 2/(s+1). -/

/-- The at-most-w values ending at index i. -/
def lastWindow (w : ℕ) (xs : List ℚ) (i : ℕ) : List ℚ :=
  (xs.take (i + 1)).drop (i + 1 - w)

/-- Arithmetic mean of a value list. -/
def listMean (vs : List ℚ) : ℚ := vs.sum / vs.length

/-- Sample variance (ddof = 1) of a value list. -/
def sampleVar (vs : List ℚ) : ℚ :=
  (vs.map (fun x => (x - listMean vs) ^ 2)).sum / ((vs.length : ℚ) - 1)

/-- pandas Series.rolling(w, min_periods=mp).mean(): none models NaN. -/
def rollingMean (w mp : ℕ) (xs : List ℚ) : List (Option ℚ) :=
  (List.range xs.length).map (fun i =>
    let vs := lastWindow w xs i
    if vs.length < mp then none else some (listMean vs))

/-- pandas Series.rolling(w, min_periods=mp).std(): sample standard
deviation, NaN below min_periods and NaN on a single observation
(ddof = 1); the square root is the abstract sqrtFn, since only
definedness matters to the claims. -/
def rollingStd (sqrtFn : ℚ → ℚ) (w mp : ℕ) (xs : List ℚ) : List (Option ℚ) :=
  (List.range xs.length).map (fun i =>
    let vs := lastWindow w xs i
    if vs.length < mp ∨ vs.length < 2 then none else some (sqrtFn (sampleVar vs)))

/-- NaN-propagating middle + 2 * std. -/
def optAdd2 (m s : Option ℚ) : Option ℚ :=
  match m, s with
  | some a, some b => some (a + 2 * b)
  | _, _ => none

/-- NaN-propagating middle - 2 * std. -/
def optSub2 (m s : Option ℚ) : Option ℚ :=
  match m, s with
  | some a, some b => some (a - 2 * b)
  | _, _ => none

/-- calculate_bollinger_bands of src/new.py lines 97-103: window-20
rolling mean and std with min_periods=1, bands = middle ± 2 std.
Returns (middle_band, upper_band, lower_band) as whole columns. -/
def calculate_bollinger_bands (sqrtFn : ℚ → ℚ) (closes : List ℚ) :
    List (Option ℚ) × List (Option ℚ) × List (Option ℚ) :=
  let middle_band := rollingMean 20 1 closes
  let std_dev := rollingStd sqrtFn 20 1 closes
  let upper_band := List.zipWith optAdd2 middle_band std_dev
  let lower_band := List.zipWith optSub2 middle_band std_dev
  (middle_band, upper_band, lower_band)

/-- calculate_bollinger_bands of src/main_new.py lines 128-149: window-20
rolling mean and std at the pandas default min_periods (= the window),
Bollinger_Min = middle - 2 std, Bollinger_Max = middle + 2 std.  Returns
(middle_band, Bollinger_Min, Bollinger_Max); the groupby("code") over the
single symbol of one analysis is the identity grouping. -/
def calculate_bollinger_bands_main_new (sqrtFn : ℚ → ℚ) (closes : List ℚ) :
    List (Option ℚ) × List (Option ℚ) × List (Option ℚ) :=
  let middle_band := rollingMean 20 20 closes
  let std_dev := rollingStd sqrtFn 20 20 closes
  (middle_band, List.zipWith optSub2 middle_band std_dev,
    List.zipWith optAdd2 middle_band std_dev)

/-- ewm(span, adjust=False).mean(). -/
def ewmMean (span : ℕ) (xs : List ℚ) : List ℚ :=
  match xs with
  | [] => []
  | x :: rest =>
    let a : ℚ := 2 / (span + 1)
    rest.scanl (fun e y => a * y + (1 - a) * e) x

/-- Float comparison of possibly-NaN values: any comparison against NaN
is false. -/
def oLt (a b : Option ℚ) : Bool :=
  match a, b with
  | some x, some y => decide (x < y)
  | _, _ => false

/-- Last element of a column, NaN for an empty column. -/
def lastO (xs : List (Option ℚ)) : Option ℚ := xs.getLastD none

/-- The close-vs-bands vote of src/new.py lines 148-151 (and
src/main_new.py lines 228-232): below the lower band Buy, above the upper
band Sell, otherwise (including any NaN comparison) abstain. -/
def bollingerVote (close lower upper : Option ℚ) : Option Vote :=
  if oLt close lower then some Vote.Buy
  else if oLt upper close then some Vote.Sell
  else none

/-- Consecutive differences diff(): delta at row t is x[t] - x[t-1]. -/
def seriesDiffs (xs : List ℚ) : List ℚ :=
  List.zipWith (fun cur prev => cur - prev) xs.tail xs

/-- RSI of one row from the window-averaged gain and loss, modelling the
float arithmetic of 100 - 100/(1 + gain/loss): a zero average loss makes
the ratio infinite and the RSI exactly 100, unless the average gain is
also zero, in which case the 0/0 gives NaN. -/
def rsiVal (gain loss : ℚ) : Option ℚ :=
  if loss = 0 then (if gain = 0 then none else some 100)
  else some (100 - 100 / (1 + gain / loss))

/-- The RSI column of calculate_rsi in src/new.py lines 118-125:
rolling-14 means (min_periods=1) of the clipped gains and losses; the NaN
first difference is turned into 0 by the where(delta gt 0, 0) clipping. -/
def rsiColumn (xs : List ℚ) : List (Option ℚ) :=
  let gains := 0 :: (seriesDiffs xs).map (fun d => if 0 < d then d else 0)
  let losses := 0 :: (seriesDiffs xs).map (fun d => if d < 0 then -d else 0)
  List.zipWith (fun og ol =>
    match og, ol with
    | some g, some l => rsiVal g l
    | _, _ => none) (rollingMean 14 1 gains) (rollingMean 14 1 losses)

/-- The four indicator votes of src/new.py lines 142-161, collected in
source order: moving averages, Bollinger bands, MACD, RSI. -/
def technical_votes (sqrtFn : ℚ → ℚ) (closes : List ℚ) : List Vote :=
  let short_ma := lastO (rollingMean 5 1 closes)
  let long_ma := lastO (rollingMean 20 1 closes)
  let bands := calculate_bollinger_bands sqrtFn closes
  let macd_line := List.zipWith (fun a b => a - b) (ewmMean 12 closes) (ewmMean 26 closes)
  let macd := macd_line.getLast?
  let sig := (ewmMean 9 macd_line).getLast?
  let rsi := lastO (rsiColumn closes)
  let ma_vote : Option Vote :=
    if oLt long_ma short_ma then some Vote.Buy
    else if oLt short_ma long_ma then some Vote.Sell
    else none
  let boll_vote := bollingerVote closes.getLast? (lastO bands.2.2) (lastO bands.2.1)
  let macd_vote : Option Vote :=
    if oLt sig macd then some Vote.Buy
    else if oLt macd sig then some Vote.Sell
    else none
  let rsi_vote : Option Vote :=
    if oLt rsi (some 30) then some Vote.Buy
    else if oLt (some 70) rsi then some Vote.Sell
    else none
  [ma_vote, boll_vote, macd_vote, rsi_vote].filterMap id

/-- analyze_technical_indicators of src/new.py lines 128-166: empty data,
a missing closePrice column, or fewer than 20 rows short-circuit to
Neutral; otherwise the four indicator votes are collected and resolved.
hasClose states whether the closePrice column is present; closes carries
the per-row close column (one entry per row, inspected only behind the
hasClose guard). -/
def analyze_technical_indicators (sqrtFn : ℚ → ℚ) (order : List Vote)
    (hasClose : Bool) (closes : List ℚ) : TSignal :=
  if closes = [] then TSignal.Neutral
  else if hasClose = false ∨ closes.length < 20 then TSignal.Neutral
  else resolveVotes order (technical_votes sqrtFn closes)

/-- C6. Insufficient-history guard: fewer than 20 bars, or a missing
close-price column, make the Technical Signal Resolver return Neutral
without reaching the vote-collection stage. -/
theorem C6_insufficient_history (sqrtFn : ℚ → ℚ) (order : List Vote)
    (hasClose : Bool) (closes : List ℚ)
    (h : hasClose = false ∨ closes.length < 20) :
    analyze_technical_indicators sqrtFn order hasClose closes = TSignal.Neutral := by
  unfold analyze_technical_indicators
  by_cases h1 : closes = []
  · rw [if_pos h1]
  · rw [if_neg h1, if_pos h]

/-- C6 witness. A three-bar series resolves to Neutral. -/
theorem C6_insufficient_history_witness :
    analyze_technical_indicators (fun q => q) [] true [1, 2, 3] = TSignal.Neutral :=
  C6_insufficient_history (fun q => q) [] true [1, 2, 3] (Or.inr (by norm_num))

/-- A window taken from a series shorter than the window size holds fewer
values than the window size. -/
lemma lastWindow_length_lt {w : ℕ} {xs : List ℚ} {i : ℕ} (hi : i < xs.length)
    (hxs : xs.length < w) : (lastWindow w xs i).length < w := by
  unfold lastWindow
  rw [List.length_drop, List.length_take]
  omega

/-- At the pandas default min_periods (= window), every rolling-mean entry
of a series shorter than the window is NaN. -/
lemma rollingMean_default_all_none {w : ℕ} {xs : List ℚ} (h : xs.length < w) :
    ∀ o ∈ rollingMean w w xs, o = none := by
  intro o ho
  unfold rollingMean at ho
  rcases List.mem_map.mp ho with ⟨i, hi, hval⟩
  rw [List.mem_range] at hi
  rw [← hval]
  exact if_pos (lastWindow_length_lt hi h)

/-- At the pandas default min_periods, every rolling-std entry of a series
shorter than the window is NaN. -/
lemma rollingStd_default_all_none (sqrtFn : ℚ → ℚ) {w : ℕ} {xs : List ℚ}
    (h : xs.length < w) :
    ∀ o ∈ rollingStd sqrtFn w w xs, o = none := by
  intro o ho
  unfold rollingStd at ho
  rcases List.mem_map.mp ho with ⟨i, hi, hval⟩
  rw [List.mem_range] at hi
  rw [← hval]
  exact if_pos (Or.inl (lastWindow_length_lt hi h))

/-- NaN propagates from the left column through a NaN-strict zip. -/
lemma zipWith_none_left (f : Option ℚ → Option ℚ → Option ℚ)
    (hf : ∀ s, f none s = none) :
    ∀ (as bs : List (Option ℚ)), (∀ a ∈ as, a = none) →
      ∀ o ∈ List.zipWith f as bs, o = none := by
  intro as
  induction as with
  | nil => intro bs _ o ho; simp at ho
  | cons a as ih =>
    intro bs h o ho
    cases bs with
    | nil => simp at ho
    | cons b bs =>
      rw [List.zipWith_cons_cons] at ho
      rcases List.mem_cons.mp ho with h0 | h0
      · rw [h0, h a (List.mem_cons_self a as)]
        exact hf b
      · exact ih bs (fun x hx => h x (List.mem_cons_of_mem a hx)) o h0

lemma optSub2_none_left (s : Option ℚ) : optSub2 none s = none := by
  cases s <;> rfl

lemma optAdd2_none_left (s : Option ℚ) : optAdd2 none s = none := by
  cases s <;> rfl

/-- With min_periods=1 every rolling-mean entry is a number: every window
ending inside the series is nonempty. -/
lemma rollingMean_mp1_all_some {w : ℕ} (hw : 1 ≤ w) (xs : List ℚ) :
    ∀ o ∈ rollingMean w 1 xs, o.isSome = true := by
  intro o ho
  unfold rollingMean at ho
  rcases List.mem_map.mp ho with ⟨i, hi, hval⟩
  rw [List.mem_range] at hi
  rw [← hval, if_neg]
  · rfl
  · unfold lastWindow
    rw [Nat.not_lt, List.length_drop, List.length_take]
    omega

lemma oLt_none_right (a : Option ℚ) : oLt a none = false := by
  cases a <;> rfl

lemma oLt_none_left (b : Option ℚ) : oLt none b = false := by
  cases b <;> rfl

/-- Both bands NaN: the Bollinger vote abstains. -/
lemma bollingerVote_none_none (close : Option ℚ) :
    bollingerVote close none none = none := by
  unfold bollingerVote
  rw [oLt_none_right, oLt_none_left]
  rfl

/-- A NaN lower band never produces a Bollinger Buy vote. -/
lemma bollingerVote_no_buy (close upper : Option ℚ) :
    bollingerVote close none upper ≠ some Vote.Buy := by
  unfold bollingerVote
  rw [oLt_none_right]
  split_ifs <;> simp_all

/-- A NaN upper band never produces a Bollinger Sell vote. -/
lemma bollingerVote_no_sell (close lower : Option ℚ) :
    bollingerVote close lower none ≠ some Vote.Sell := by
  unfold bollingerVote
  rw [oLt_none_left]
  split_ifs <;> simp_all

/-- C9 counterexample. A one-bar series is shorter than 20 bars, yet
under the src/new.py calculate_bollinger_bands (min_periods=1) its middle
band is the number 10, not the NaN sentinel the claim requires for all
three bands. -/
theorem C9_counterexample :
    ([10] : List ℚ).length < 20
    ∧ lastO (calculate_bollinger_bands (fun q => q) [10]).1 = some 10 := by
  constructor
  · norm_num
  · show lastO (rollingMean 20 1 [10]) = some 10
    rw [show rollingMean 20 1 [10] = [some 10] from ?_]
    · rfl
    · unfold rollingMean lastWindow listMean
      rw [show ([10] : List ℚ).length = 1 from rfl,
        show List.range 1 = [0] from by simp [List.range_succ]]
      simp

/-- C9 amended. Bollinger undefined-before-window, as the code splits
it: under the src/main_new.py bands (window 20, pandas default
min-periods) every middle, lower and upper band value of a series shorter
than 20 bars is the NaN sentinel; under the src/new.py bands
(min_periods=1) the middle band is a number at every bar (the claimed
all-NaN behaviour fails there).  In both variants a NaN band makes the
Bollinger vote abstain rather than fault: with both bands NaN no vote is
cast, a NaN lower band never yields Buy, and a NaN upper band never
yields Sell. -/
theorem C9_amended (sqrtFn : ℚ → ℚ) (closes : List ℚ) (close lower upper : Option ℚ)
    (h : closes.length < 20) :
    (∀ o ∈ (calculate_bollinger_bands_main_new sqrtFn closes).1, o = none)
    ∧ (∀ o ∈ (calculate_bollinger_bands_main_new sqrtFn closes).2.1, o = none)
    ∧ (∀ o ∈ (calculate_bollinger_bands_main_new sqrtFn closes).2.2, o = none)
    ∧ (∀ o ∈ (calculate_bollinger_bands sqrtFn closes).1, o.isSome = true)
    ∧ bollingerVote close none none = none
    ∧ bollingerVote close none upper ≠ some Vote.Buy
    ∧ bollingerVote close lower none ≠ some Vote.Sell := by
  have hmid : ∀ o ∈ rollingMean 20 20 closes, o = none :=
    rollingMean_default_all_none h
  refine ⟨hmid, ?_, ?_, rollingMean_mp1_all_some (by norm_num) closes,
    bollingerVote_none_none close, bollingerVote_no_buy close upper,
    bollingerVote_no_sell close lower⟩
  · exact zipWith_none_left optSub2 optSub2_none_left _ _ hmid
  · exact zipWith_none_left optAdd2 optAdd2_none_left _ _ hmid

/-- C9 witness. A three-bar series under the main_new bands, with a
NaN pair of bands abstaining. -/
theorem C9_amended_witness :
    bollingerVote (some 1) none none = none :=
  (C9_amended (fun q => q) [1, 2, 3] (some 1) none none (by norm_num)).2.2.2.2.1
